import Mathlib

/-
  Verification development for the unmd repository (src/unlibmd.py).

  Shallow embedding of:
  - the query compiler `get_query` (XPath selector construction),
  - the record extractor `extract_xml` (cardinality-aware shaping),
  - the paginated fetchers `get_records_xml` and `undl_request`,
  - the batch driver `get_records_json`,
  - the post-processing transform `convert_me_id`.

  Python dictionaries are modelled as insertion-ordered association lists with
  the update-in-place / append-if-new semantics of dict assignment.  Machine
  level details that the claims do not touch (HTTP transport, xmltodict quirks,
  printing) are abstracted behind an environment function giving the response
  to the n-th HTTP GET of a session.
-/

namespace Unlibmd

/-- A Python dict with string keys, as an insertion-ordered association list.
    Values of type `Option String` stand for Python values that are either a
    string or Python None. -/
abbrev Params := List (String × Option String)

/-- Python dict assignment `d[k] = v`: overwrite in place when the key exists,
    append at the end otherwise. -/
def pyInsert {α : Type} (d : List (String × α)) (k : String) (v : α) :
    List (String × α) :=
  if d.any (fun p => p.1 == k) then
    d.map (fun p => if p.1 == k then (k, v) else p)
  else
    d ++ [(k, v)]

/-- Python dict read `d.get(k)`: the value under the first matching key. -/
def pyGet {α : Type} (d : List (String × α)) (k : String) : Option α :=
  (d.find? (fun p => p.1 == k)).map (fun p => p.2)

/-- Truthiness of a Python variable holding a string or None:
    None and the empty string are falsy. -/
def pyTruthy : Option String → Bool
  | some s => s ≠ ""
  | none => false

/- ----------------------------------------------------------------
   MARC record model (the tree that `extract_xml` walks).
   A subfield always carries a `code` attribute (guaranteed by the MARC
   schema; the source reads it with `e.get("code")`), and its text may be
   absent for an empty element.
   ---------------------------------------------------------------- -/

structure Subfield where
  code : String
  text : Option String
deriving DecidableEq

structure Datafield where
  tag : String
  ind1 : Option String
  text : Option String
  subfields : List Subfield
deriving DecidableEq

/-- A raw MARC record: control fields (tag, text) and data fields. -/
structure RawRecord where
  controlfields : List (String × Option String)
  datafields : List Datafield
deriving DecidableEq

/-- A caller-declared extraction rule (one entry of the `elements` list
    passed to `extract_xml`).  `code` is `Option String`: `none` models the
    Python value None ("no code"), `some ""` models the empty-string code. -/
structure FieldSpec where
  field : String
  element : String
  code : Option String
  ind1 : Option String
  name : String
deriving DecidableEq

/- ----------------------------------------------------------------
   Query compiler: `get_query` from src/unlibmd.py.
   ---------------------------------------------------------------- -/

/-- The single-quote character, used when assembling XPath attribute tests. -/
def quoteChar : String := String.mk [Char.ofNat 39]

/-- An XPath attribute test `[@name=<quote>v<quote>]`. -/
def attrTest (attr v : String) : String :=
  "[@" ++ attr ++ "=" ++ quoteChar ++ v ++ quoteChar ++ "]"

/-- The spec together with its derived selector string (CompiledQuery). -/
structure CompiledQuery where
  spec : FieldSpec
  query : String
deriving DecidableEq

/-- Function `get_query` builds the XPath selector.  The `ind1` part is appended only
    when `ind1` is truthy (`if ind1:` in Python — the empty string counts as
    absent), while the subfield part is appended whenever `code` is not None
    (`if code or code == "":` in Python — the empty string is a valid code). -/
def get_query (e : FieldSpec) : CompiledQuery :=
  let q := "datafield" ++ attrTest "tag" e.field
  let q :=
    match e.ind1 with
    | some i => if i ≠ "" then q ++ attrTest "ind1" i else q
    | none => q
  let q :=
    match e.code with
    | some c => q ++ "/subfield" ++ attrTest "code" c
    | none => q
  CompiledQuery.mk e q

/- ----------------------------------------------------------------
   Record extractor: `extract_xml` from src/unlibmd.py.
   `findall` below is the ElementTree semantics of the selector string that
   `get_query` produces, applied to the record tree:
   `datafield[@tag=t]` selects the record's datafield children with that tag
   (narrowed by `[@ind1=i]` when the indicator part is present), and the
   optional `/subfield[@code=c]` step descends to the matching subfield
   children of each selected datafield, in document order.
   ---------------------------------------------------------------- -/

/-- A node returned by `record.findall(query)`: a datafield or a subfield. -/
inductive Node where
  | fieldN (f : Datafield)
  | subN (s : Subfield)
deriving DecidableEq

/-- Whether a datafield passes the tag test and the optional ind1 test of the
    compiled selector. -/
def fieldMatches (e : FieldSpec) (f : Datafield) : Bool :=
  f.tag == e.field && (if pyTruthy e.ind1 then f.ind1 == e.ind1 else true)

/-- Semantics of `record.findall((get_query e).query)`: document-order list of matched
    nodes.  With `code` absent the selector stops at the field level; with
    `code` present (including the empty string) it descends to subfields. -/
def findall (r : RawRecord) (e : FieldSpec) : List Node :=
  match e.code with
  | none => (r.datafields.filter (fieldMatches e)).map Node.fieldN
  | some c =>
      (r.datafields.filter (fieldMatches e)).flatMap
        (fun f => (f.subfields.filter (fun s => s.code == c)).map Node.subN)

/-- A Python dict comprehension over (code, text) pairs: first-insertion key
    order, last assignment wins. -/
def pyDict (ps : List (String × Option String)) : List (String × Option String) :=
  ps.foldl (fun d p => pyInsert d p.1 p.2) []

/-- The subfields reachable from a matched node by the `.//subfield` XPath of
    the source: a datafield yields its subfield children, a subfield has no
    subfield descendants. -/
def nodeSubs : Node → List Subfield
  | Node.fieldN f => f.subfields
  | Node.subN _ => []

/-- The dict comprehension `{e.get("code"): e.text for e in node.xpath(".//subfield")}`. -/
def nodeDict (n : Node) : List (String × Option String) :=
  pyDict ((nodeSubs n).map (fun s => (s.code, s.text)))

/-- The `.text` of a matched node. -/
def nodeText : Node → Option String
  | Node.fieldN f => f.text
  | Node.subN s => s.text

/-- One extracted value: Python None, a single string (only used for
    `undl_id`), a list of texts, or a list of code→text dictionaries. -/
inductive Value where
  | noneV
  | strV (s : String)
  | texts (ts : List (Option String))
  | dicts (ds : List (List (String × Option String)))
deriving DecidableEq

/-- The per-element branch of `extract_xml`, written exactly as the source
    does it: a separate branch for exactly one match (`len(xml_element) == 1`),
    more than one match, and zero matches. -/
def shapeValue (kind : String) : List Node → Value
  | [] => Value.noneV
  | [n] =>
      if kind == "field" then Value.dicts [nodeDict n]
      else Value.texts [nodeText n]
  | ns =>
      if kind == "field" then Value.dicts (ns.map nodeDict)
      else Value.texts (ns.map nodeText)

/-- The value `extract_xml` stores for one compiled element. -/
def extractValue (r : RawRecord) (e : FieldSpec) : Value :=
  shapeValue e.element (findall r e)

/-- Semantics of `record.find("controlfield[@tag=..001..]")` and the `undl_id`
    value derived from it: the control field text, Python None when the
    control field is absent or has no text. -/
def undlId (r : RawRecord) : Value :=
  match r.controlfields.find? (fun c => c.1 == "001") with
  | some c =>
      match c.2 with
      | some s => Value.strV s
      | none => Value.noneV
  | none => Value.noneV

/-- Function `extract_xml` compiles every element, seed the result dict with
    `undl_id`, then store each extracted value under the element's name. -/
def extract_xml (r : RawRecord) (elements : List FieldSpec) :
    List (String × Value) :=
  (elements.map get_query).foldl
    (fun d q => pyInsert d q.spec.name (extractValue r q.spec))
    [("undl_id", undlId r)]

/-- Modelled from the spec: the section 4.3 shape-by-cardinality rule.  Zero
    matches give None; otherwise, kind `field` gives one dictionary per
    matched occurrence and any other kind gives the matched texts, in match
    (document) order; a single match is the one-element instance of the same
    rule. -/
def shape_by_cardinality (kind : String) (ns : List Node) : Value :=
  match ns with
  | [] => Value.noneV
  | ns =>
      if kind == "field" then Value.dicts (ns.map nodeDict)
      else Value.texts (ns.map nodeText)

/- ----------------------------------------------------------------
   Paginated fetcher `undl_request` (JSON-driver transport).
   The HTTP environment is a function from the index of the GET within the
   session to the decoded response.  Only the parts of a response the source
   inspects are modelled.
   ---------------------------------------------------------------- -/

/-- One decoded HTTP response, as `undl_request` inspects it.  For a 200
    response, `total` is the parsed total, `search_id` the optional cursor,
    and `records` is `some rs` exactly when the body contains a `record`
    member (the ordered page of records).  For another status, `jsonOk` says
    whether `r.json()` succeeds on the body. -/
structure HttpResp where
  status : Nat
  total : Int
  search_id : Option String
  records : Option (List String)
  jsonOk : Bool
deriving DecidableEq

/-- The log row `[status, total, len(records), error, search_id]` returned by
    `undl_request`, together with the records and two observables of the run:
    the parameter map sent on each GET and the total seconds slept. -/
structure URes where
  status : Option Nat
  total : Option Int
  count : Nat
  error : Option String
  search_id : Option String
  records : List String
  attempts : List Params
  slept : Nat
deriving DecidableEq

/-- The message printed and stored by the 429 branch. -/
def rateLimitMsg : String :=
  "Let\x27s wait 5 minutes! Too many requests, they say!"

/-- The retry loop of `undl_request` (`while retry_count < 2`).  The fuel is
    `2 - retry_count`; only a 429 consumes fuel, every other status breaks.
    The carried `err` reproduces that the error slot set by a 429 survives
    into the next attempt. -/
def undl_loop (get : Nat → HttpResp) (p : Params) :
    Nat → Option Nat → Option String → List Params → Nat → URes
  | 0, st, err, atts, slept =>
      URes.mk st none 0 err none [] atts slept
  | Nat.succ n, _, err, atts, slept =>
      let r := get atts.length
      let atts := atts ++ [p]
      if r.status == 429 then
        undl_loop get p n (some 429) (some rateLimitMsg) atts (slept + 300)
      else if r.status == 200 then
        match r.records with
        | some recs =>
            URes.mk (some r.status) (some r.total) recs.length err
              r.search_id recs atts slept
        | none =>
            URes.mk (some r.status) (some r.total) 0
              (some (toString r.status ++ ": No records"))
              r.search_id [] atts slept
      else
        let err2 :=
          if r.jsonOk then err
          else some (toString r.status ++ ": Unable to parse error message")
        URes.mk (some r.status) none 0 err2 none [] atts slept

/-- Function `undl_request` sets `parameters["format"] = "xml"` (mutating the
    caller's dict) and runs the bounded retry loop.  A missing cursor in a
    200 body is caught (`except KeyError`) and only printed. -/
def undl_request (get : Nat → HttpResp) (parameters : Params) : URes :=
  undl_loop get (pyInsert parameters "format" (some "xml")) 2 none none [] 0

/- ----------------------------------------------------------------
   Batch driver `get_records_json`.
   ---------------------------------------------------------------- -/

/-- Driver state: accumulated records, captured total, per-request logs, the
    evolving `search_parameters` dict, the parameter map of every GET issued
    so far, and the index of the next GET. -/
structure DState where
  all : List String
  total : Option Int
  logs : List URes
  sp : Params
  reqParams : List Params
  pageIx : Nat
deriving DecidableEq

/-- Loop guard `while len(all_records) != total:` — with `total` still None the Python
    comparison `0 != None` is true, so the loop always runs at least once. -/
def wantsMore (n : Nat) : Option Int → Bool
  | none => true
  | some t => !((n : Int) == t)

/-- One-session batch driver loop (`get_records_json`).  Each iteration calls
    `undl_request` on the evolving `search_parameters`; since `undl_request`
    mutates that dict, the driver keeps the `format` key afterwards.  The
    cursor is written into the dict only inside `if total is None:`, i.e.
    only after the first request that reports a total. -/
def grj_loop (pages : Nat → HttpResp) : Nat → DState → DState
  | 0, s => s
  | Nat.succ n, s =>
      if wantsMore s.all.length s.total then
        let res := undl_request (fun i => pages (s.pageIx + i)) s.sp
        let sp1 := pyInsert s.sp "format" (some "xml")
        let all := s.all ++ res.records
        let logs := s.logs ++ [res]
        let next :=
          match s.total with
          | none =>
              DState.mk all res.total logs
                (pyInsert sp1 "search_id" res.search_id)
                (s.reqParams ++ res.attempts) (s.pageIx + res.attempts.length)
          | some t =>
              DState.mk all (some t) logs sp1
                (s.reqParams ++ res.attempts) (s.pageIx + res.attempts.length)
        grj_loop pages n next
      else s

/-- Function `get_records_json` copies the caller parameters and loop until the
    accumulated count equals the reported total (fuel bounds the number of
    loop iterations inspected). -/
def get_records_json (pages : Nat → HttpResp) (parameters : Params)
    (fuel : Nat) : DState :=
  grj_loop pages fuel (DState.mk [] none [] parameters [] 0)

/- ----------------------------------------------------------------
   XML fetcher `get_records_xml`.
   ---------------------------------------------------------------- -/

/-- A decoded MARC-XML response body as `get_records_xml` inspects it.  The
    outer `Option` of `search_id` is whether the element exists (absent makes
    `response.find(...).text` raise AttributeError); the inner `Option
    String` is the element text.  `total` is the text of the `total` element
    when that element exists.  `collection` is the list of record children
    when the `collection` element exists; an empty element is falsy. -/
structure XmlBody where
  search_id : Option (Option String)
  total : Option String
  collection : Option (List String)
deriving DecidableEq

/-- One HTTP response for the XML fetcher: status, whether the body parses as
    XML, and the decoded body. -/
structure XResp where
  status : Nat
  parseOk : Bool
  body : XmlBody
deriving DecidableEq

/-- Observables of a `get_records_xml` run: the records gathered, the
    parameter map of each GET issued, the seconds slept and the captured
    total. -/
structure XRes where
  records : List String
  attempts : List Params
  slept : Nat
  total : Option String
deriving DecidableEq

/-- The `while True:` loop of `get_records_xml`.  An uncaught Python
    exception is modelled as `Except.error`; running out of fuel is the
    distinct error `"fuel"` so that theorems must supply enough fuel.  On a
    429 the code sleeps 300 seconds, repeats the GET once, and then parses
    whatever that retry returned (there is no recheck of its status).  A
    parse failure or a missing/empty `collection` element breaks the loop
    normally; a missing `search_id` or `total` element raises. -/
def grx_loop (get : Nat → XResp) (parameters : Params) :
    Nat → Params → Option String → Option String → List String →
    List Params → Nat → Except String XRes
  | 0, _, _, _, _, _, _ => Except.error "fuel"
  | Nat.succ n, params0, search_id, total, recs, atts, slept =>
      let params :=
        if pyTruthy search_id then pyInsert params0 "search_id" search_id
        else parameters
      let r1 := get atts.length
      let atts1 := atts ++ [params]
      if r1.status == 429 then
        let r2 := get atts1.length
        let atts2 := atts1 ++ [params]
        let slept2 := slept + 300
        if r2.parseOk = false then Except.ok (XRes.mk recs atts2 slept2 total)
        else
          match r2.body.search_id with
          | none => Except.error "AttributeError"
          | some sidText =>
            match (if pyTruthy total then Except.ok total
                   else match r2.body.total with
                        | none => Except.error "AttributeError"
                        | some t => Except.ok (some t) :
                     Except String (Option String)) with
            | Except.error msg => Except.error msg
            | Except.ok total2 =>
              match r2.body.collection with
              | none => Except.ok (XRes.mk recs atts2 slept2 total2)
              | some [] => Except.ok (XRes.mk recs atts2 slept2 total2)
              | some (c :: cs) =>
                  grx_loop get parameters n params sidText total2
                    (recs ++ c :: cs) atts2 slept2
      else if r1.status == 200 then
        if r1.parseOk = false then Except.ok (XRes.mk recs atts1 slept total)
        else
          match r1.body.search_id with
          | none => Except.error "AttributeError"
          | some sidText =>
            match (if pyTruthy total then Except.ok total
                   else match r1.body.total with
                        | none => Except.error "AttributeError"
                        | some t => Except.ok (some t) :
                     Except String (Option String)) with
            | Except.error msg => Except.error msg
            | Except.ok total2 =>
              match r1.body.collection with
              | none => Except.ok (XRes.mk recs atts1 slept total2)
              | some [] => Except.ok (XRes.mk recs atts1 slept total2)
              | some (c :: cs) =>
                  grx_loop get parameters n params sidText total2
                    (recs ++ c :: cs) atts1 slept
      else
        Except.ok (XRes.mk recs atts1 slept total)

/-- Function `get_records_xml` enters the loop with no cursor: the first iteration always sends a fresh copy of the
    caller parameters (`params = parameters.copy()` when no cursor is known),
    and each later iteration writes the cursor of the page just parsed into
    the evolving map. -/
def get_records_xml (get : Nat → XResp) (parameters : Params) (fuel : Nat) :
    Except String XRes :=
  grx_loop get parameters fuel parameters none none [] [] 0

/- ----------------------------------------------------------------
   Post-processing transform `convert_me_id`.
   The string operations the source uses (`startswith`, `replace`, `strip`)
   are embedded as structurally recursive functions on character lists so
   that concrete runs reduce inside the kernel.
   ---------------------------------------------------------------- -/

/-- Python `s.startswith(pre)`. -/
def pyStartsWith (s pre : String) : Bool :=
  pre.data.isPrefixOf s.data

/-- Worker for `s.replace(pat, "")`: left-to-right, non-overlapping removal
    of every occurrence of `pat` (Python `str.replace` with an empty
    replacement).  The fuel starts at the length of the list and dominates
    it throughout, so the `0` case with a nonempty list is never reached. -/
def removeAllLoop (pat : List Char) : Nat → List Char → List Char
  | _, [] => []
  | 0, l => l
  | Nat.succ n, c :: cs =>
      if pat.isPrefixOf (c :: cs) then
        removeAllLoop pat n (List.drop (pat.length - 1) cs)
      else c :: removeAllLoop pat n cs

/-- Python `s.replace(pat, "")` for a nonempty pattern. -/
def pyRemoveAll (pat s : String) : String :=
  String.mk (removeAllLoop pat.data s.data.length s.data)

/-- The ASCII whitespace characters `str.strip()` removes. -/
def pyIsSpace (c : Char) : Bool :=
  c == ' ' || c == '\t' || c == '\n' || c == '\x0d' || c == '\x0b' || c == '\x0c'

/-- Python `s.strip()`: drop whitespace from both ends. -/
def pyStrip (s : String) : String :=
  String.mk (((s.data.dropWhile pyIsSpace).reverse.dropWhile pyIsSpace).reverse)

/-- A Python value as `convert_me_id` sees it: a string, a number, a list, or
    None. -/
inductive CVal where
  | strV (s : String)
  | intV (n : Int)
  | listV (xs : List CVal)
  | noneV

/-- The guard of the loop in `convert_me_id`:
    `isinstance(value, str) and value.startswith((DHL))`. -/
def isDHL : CVal → Bool
  | CVal.strV s => pyStartsWith s "(DHL)"
  | _ => false

/-- The `for value in column_value:` loop: return on the first qualifying
    string, fall through to None. -/
def cmidLoop : List CVal → CVal
  | [] => CVal.noneV
  | CVal.strV s :: rest =>
      if pyStartsWith s "(DHL)" then
        CVal.strV (pyStrip (pyRemoveAll "(DHL)" s))
      else cmidLoop rest
  | _ :: rest => cmidLoop rest

/-- Function `convert_me_id` scans a list input, return any other input unchanged. -/
def convert_me_id : CVal → CVal
  | CVal.listV xs => cmidLoop xs
  | v => v

/-- Modelled from the spec: the identifier-normalizer strips the literal
    leading prefix (and only it) from the matched element and trims
    surrounding whitespace. -/
def leadingPrefixDropTrim (s : String) : String :=
  pyStrip (String.mk (s.data.drop 5))

/- ----------------------------------------------------------------
   Shared helper lemmas.
   ---------------------------------------------------------------- -/

/-- Appending two strings whose joint length is nonzero changes a string. -/
theorem append2_ne (a b c : String) (h : b.length + c.length ≠ 0) :
    a ++ b ++ c ≠ a := by
  intro he
  have hl := congrArg String.length he
  rw [String.length_append, String.length_append] at hl
  omega

/-- Lemma find? skips a pair whose key fails the test. -/
theorem find?_pair_cons_neg {α : Type} (x : String × α) (l : List (String × α))
    (k : String) (hx : (x.1 == k) = false) :
    List.find? (fun p => p.1 == k) (x :: l) = List.find? (fun p => p.1 == k) l := by
  simp [List.find?_cons, hx]

/-- Lemma find? returns a pair whose key passes the test. -/
theorem find?_pair_cons_pos {α : Type} (x : String × α) (l : List (String × α))
    (k : String) (hx : (x.1 == k) = true) :
    List.find? (fun p => p.1 == k) (x :: l) = some x := by
  simp [List.find?_cons, hx]

/-- Updating the value stored under key `k` leaves reads of another key
    unchanged. -/
theorem pyGet_map_update {α : Type} (k k' : String) (v : α) (h : k' ≠ k) :
    ∀ d : List (String × α),
      pyGet (d.map (fun p => if p.1 == k then (k, v) else p)) k' = pyGet d k'
  | [] => rfl
  | (a, b) :: d => by
      have ih := pyGet_map_update k k' v h d
      unfold pyGet at ih ⊢
      rw [List.map_cons]
      by_cases hak : a = k
      · subst hak
        rw [if_pos (by simp : ((a, b).1 == a) = true),
          find?_pair_cons_neg (a, v) _ k' (by simp; exact fun he => h he.symm),
          find?_pair_cons_neg (a, b) _ k' (by simp; exact fun he => h he.symm)]
        exact ih
      · rw [if_neg (by simp [hak] : ¬((a, b).1 == k) = true)]
        by_cases hak' : a = k'
        · subst hak'
          rw [find?_pair_cons_pos (a, b) _ a (by simp),
            find?_pair_cons_pos (a, b) _ a (by simp)]
        · rw [find?_pair_cons_neg (a, b) _ k' (by simp [hak']),
            find?_pair_cons_neg (a, b) _ k' (by simp [hak'])]
          exact ih

/-- Appending a binding for key `k` leaves reads of another key unchanged. -/
theorem pyGet_append_singleton {α : Type} (k k' : String) (v : α) (h : k' ≠ k) :
    ∀ d : List (String × α), pyGet (d ++ [(k, v)]) k' = pyGet d k'
  | [] => by
      unfold pyGet
      rw [List.nil_append,
        find?_pair_cons_neg (k, v) _ k' (by simp; exact fun he => h he.symm)]
  | (a, b) :: d => by
      have ih := pyGet_append_singleton k k' v h d
      unfold pyGet at ih ⊢
      rw [List.cons_append]
      by_cases hak' : a = k'
      · subst hak'
        rw [find?_pair_cons_pos (a, b) _ a (by simp),
          find?_pair_cons_pos (a, b) _ a (by simp)]
      · rw [find?_pair_cons_neg (a, b) _ k' (by simp [hak']),
          find?_pair_cons_neg (a, b) _ k' (by simp [hak'])]
        exact ih

/-- Python dict assignment under key `k` leaves reads of another key
    unchanged. -/
theorem pyGet_pyInsert_ne {α : Type} (d : List (String × α)) (k k' : String)
    (v : α) (h : k' ≠ k) : pyGet (pyInsert d k v) k' = pyGet d k' := by
  unfold pyInsert
  split
  · exact pyGet_map_update k k' v h d
  · exact pyGet_append_singleton k k' v h d

/-- Python dict assignment is idempotent: writing the same value twice under
    the same key gives the same dict as writing it once. -/
theorem pyInsert_idem {α : Type} (d : List (String × α)) (k : String) (v : α) :
    pyInsert (pyInsert d k v) k v = pyInsert d k v := by
  unfold pyInsert
  by_cases hany : (d.any (fun p => p.1 == k)) = true
  · rw [if_pos hany]
    have hany2 : ((d.map (fun p => if p.1 == k then (k, v) else p)).any
        (fun p => p.1 == k)) = true := by
      rw [List.any_eq_true] at hany ⊢
      obtain ⟨x, hx, hxk⟩ := hany
      exact ⟨(k, v), List.mem_map.mpr ⟨x, hx, if_pos hxk⟩, by simp⟩
    rw [if_pos hany2, List.map_map]
    apply List.map_congr_left
    intro x _
    by_cases hxk : x.1 = k
    · simp [hxk]
    · simp [hxk]
  · rw [if_neg hany]
    have hnot : ∀ x ∈ d, (x.1 == k) = false := by
      intro x hx
      by_contra hcon
      exact hany (List.any_eq_true.mpr
        ⟨x, hx, by revert hcon; cases x.1 == k <;> simp⟩)
    have hany2 : ((d ++ [(k, v)]).any (fun p => p.1 == k)) = true := by
      simp
    rw [if_pos hany2, List.map_append]
    have h1 : d.map (fun p => if p.1 == k then (k, v) else p) = d := by
      have hcongr : ∀ x ∈ d,
          (if (x.1 == k) = true then (k, v) else x) = id x := by
        intro x hx
        simp [hnot x hx]
      rw [List.map_congr_left hcongr, List.map_id]
    rw [h1]
    simp

/-- Every request of one `undl_loop` run either was already recorded or uses
    the single parameter map `p` of the call: the retry repeats the same
    request. -/
theorem undl_loop_attempts (get : Nat → HttpResp) (p : Params) :
    ∀ (n : Nat) (st : Option Nat) (err : Option String) (atts : List Params)
      (slept : Nat) (q : Params),
      q ∈ (undl_loop get p n st err atts slept).attempts → q ∈ atts ∨ q = p
  | 0, st, err, atts, slept, q => fun hq => Or.inl hq
  | Nat.succ n, st, err, atts, slept, q => by
      intro hq
      simp only [undl_loop] at hq
      by_cases h429 : (((get atts.length).status == 429) = true)
      · rw [if_pos h429] at hq
        rcases undl_loop_attempts get p n _ _ _ _ q hq with h | h
        · rcases List.mem_append.mp h with h1 | h2
          · exact Or.inl h1
          · exact Or.inr (List.mem_singleton.mp h2)
        · exact Or.inr h
      · rw [if_neg h429] at hq
        by_cases h200 : (((get atts.length).status == 200) = true)
        · rw [if_pos h200] at hq
          cases hrec : (get atts.length).records with
          | some rs =>
              rw [hrec] at hq
              simp only at hq
              rcases List.mem_append.mp hq with h1 | h2
              · exact Or.inl h1
              · exact Or.inr (List.mem_singleton.mp h2)
          | none =>
              rw [hrec] at hq
              simp only at hq
              rcases List.mem_append.mp hq with h1 | h2
              · exact Or.inl h1
              · exact Or.inr (List.mem_singleton.mp h2)
        · rw [if_neg h200] at hq
          simp only at hq
          rcases List.mem_append.mp hq with h1 | h2
          · exact Or.inl h1
          · exact Or.inr (List.mem_singleton.mp h2)

/-- Every request of one `undl_request` call uses the caller map with
    `format` set: within one call the retried request is identical. -/
theorem undl_request_attempts (get : Nat → HttpResp) (params : Params)
    (q : Params) (hq : q ∈ (undl_request get params).attempts) :
    q = pyInsert params "format" (some "xml") := by
  rcases undl_loop_attempts get (pyInsert params "format" (some "xml"))
      2 none none [] 0 q hq with h | h
  · exact absurd h (List.not_mem_nil q)
  · exact h

/-- Once the total has been captured, the batch driver's parameter map is
    frozen: every later request of the session uses the map as it stood when
    the total was captured (with `format` set by the transport), so no later
    page's cursor is ever inserted. -/
theorem grj_frozen (pages : Nat → HttpResp) :
    ∀ (n : Nat) (s : DState) (t : Int), s.total = some t →
      ((grj_loop pages n s).sp = s.sp ∨
        (grj_loop pages n s).sp = pyInsert s.sp "format" (some "xml")) ∧
      (∀ q ∈ (grj_loop pages n s).reqParams,
        q ∈ s.reqParams ∨ q = pyInsert s.sp "format" (some "xml"))
  | 0, s, t, ht => ⟨Or.inl rfl, fun q hq => Or.inl hq⟩
  | Nat.succ n, s, t, ht => by
      by_cases hw : (wantsMore s.all.length s.total = true)
      · rw [ht] at hw
        have hstep : grj_loop pages (Nat.succ n) s =
            grj_loop pages n
              (DState.mk
                (s.all ++ (undl_request (fun i => pages (s.pageIx + i)) s.sp).records)
                (some t)
                (s.logs ++ [undl_request (fun i => pages (s.pageIx + i)) s.sp])
                (pyInsert s.sp "format" (some "xml"))
                (s.reqParams ++ (undl_request (fun i => pages (s.pageIx + i)) s.sp).attempts)
                (s.pageIx + (undl_request (fun i => pages (s.pageIx + i)) s.sp).attempts.length)) := by
          simp only [grj_loop, ht]
          rw [if_pos hw]
        have ih := grj_frozen pages n
          (DState.mk
            (s.all ++ (undl_request (fun i => pages (s.pageIx + i)) s.sp).records)
            (some t)
            (s.logs ++ [undl_request (fun i => pages (s.pageIx + i)) s.sp])
            (pyInsert s.sp "format" (some "xml"))
            (s.reqParams ++ (undl_request (fun i => pages (s.pageIx + i)) s.sp).attempts)
            (s.pageIx + (undl_request (fun i => pages (s.pageIx + i)) s.sp).attempts.length))
          t rfl
        rw [hstep]
        constructor
        · rcases ih.1 with h | h
          · exact Or.inr h
          · right
            rw [h]
            exact pyInsert_idem s.sp "format" (some "xml")
        · intro q hq
          rcases ih.2 q hq with hmem | heq
          · rcases List.mem_append.mp hmem with h1 | h2
            · exact Or.inl h1
            · exact Or.inr (undl_request_attempts _ _ q h2)
          · right
            rw [heq]
            exact pyInsert_idem s.sp "format" (some "xml")
      · rw [ht] at hw
        have hstep : grj_loop pages (Nat.succ n) s = s := by
          simp only [grj_loop, ht]
          rw [if_neg hw]
        rw [hstep]
        exact ⟨Or.inl rfl, fun q hq => Or.inl hq⟩

/-- Folding the per-element stores of `extract_xml` over queries none of
    which writes key `k` leaves reads of `k` unchanged. -/
theorem pyGet_extract_foldl (r : RawRecord) (k : String) :
    ∀ (qs : List CompiledQuery) (d : List (String × Value)),
      (∀ q ∈ qs, q.spec.name ≠ k) →
      pyGet
        (qs.foldl (fun d q => pyInsert d q.spec.name (extractValue r q.spec)) d)
        k = pyGet d k
  | [], _, _ => rfl
  | q :: qs, d, h => by
      rw [List.foldl_cons,
        pyGet_extract_foldl r k qs _
          (fun p hp => h p (List.mem_cons_of_mem _ hp)),
        pyGet_pyInsert_ne _ _ _ _ (h q (List.mem_cons_self _ _)).symm]

/-- The single-match and multi-match branches of the extractor agree with the
    uniform cardinality rule. -/
theorem shapeValue_eq_rule (kind : String) :
    ∀ ns : List Node, shapeValue kind ns = shape_by_cardinality kind ns
  | [] => rfl
  | [_] => rfl
  | _ :: _ :: _ => rfl

/-- Scanning a list with no qualifying element falls through to None. -/
theorem cmidLoop_no_match :
    ∀ xs : List CVal, (∀ x ∈ xs, isDHL x = false) → cmidLoop xs = CVal.noneV
  | [], _ => rfl
  | x :: rest, h => by
      have hx := h x (List.mem_cons_self _ _)
      have ih :=
        cmidLoop_no_match rest (fun y hy => h y (List.mem_cons_of_mem _ hy))
      cases x with
      | strV s =>
          have hs : pyStartsWith s "(DHL)" = false := by simpa [isDHL] using hx
          simpa [cmidLoop, hs] using ih
      | intV n => exact ih
      | listV xs => exact ih
      | noneV => exact ih

/-- Scanning a list whose first qualifying element is the string `s` returns
    the transformed `s`. -/
theorem cmidLoop_first_match :
    ∀ (pre post : List CVal) (s : String), (∀ x ∈ pre, isDHL x = false) →
      pyStartsWith s "(DHL)" = true →
      cmidLoop (pre ++ CVal.strV s :: post)
        = CVal.strV (pyStrip (pyRemoveAll "(DHL)" s))
  | [], post, s, _, hs => by simp [cmidLoop, hs]
  | x :: pre, post, s, h, hs => by
      have hx := h x (List.mem_cons_self _ _)
      have ih :=
        cmidLoop_first_match pre post s
          (fun y hy => h y (List.mem_cons_of_mem _ hy)) hs
      cases x with
      | strV t =>
          have ht : pyStartsWith t "(DHL)" = false := by simpa [isDHL] using hx
          simpa [cmidLoop, ht] using ih
      | intV n => exact ih
      | listV xs => exact ih
      | noneV => exact ih

/- ----------------------------------------------------------------
   Concrete scenarios used by the claims.
   ---------------------------------------------------------------- -/

/-- A caller-supplied search parameter map. -/
def pQ : Params := [("q", some "x")]

/-- A 200 page for the JSON driver: total 3, the given cursor and records. -/
def pageR (sid : String) (recs : List String) : HttpResp :=
  HttpResp.mk 200 3 (some sid) (some recs) true

/-- Three one-record pages with distinct cursors s1, s2, s3. -/
def pagesC1 : Nat → HttpResp
  | 0 => pageR "s1" ["r1"]
  | 1 => pageR "s2" ["r2"]
  | _ => pageR "s3" ["r3"]

/-- A 200 XML page carrying the given cursor and records. -/
def xpage (sid : String) (recs : List String) : XResp :=
  XResp.mk 200 true (XmlBody.mk (some (some sid)) (some "3") (some recs))

/-- Three one-record XML pages with distinct cursors, then an empty page. -/
def pagesX : Nat → XResp
  | 0 => xpage "s1" ["r1"]
  | 1 => xpage "s2" ["r2"]
  | 2 => xpage "s3" ["r3"]
  | _ => xpage "s4" []

/-- Pages of 2, then 1, then 0 records, with a reported total of 3. -/
def pagesC8 : Nat → HttpResp
  | 0 => HttpResp.mk 200 3 (some "sA") (some ["r1", "r2"]) true
  | 1 => HttpResp.mk 200 3 (some "sB") (some ["r3"]) true
  | _ => HttpResp.mk 200 3 (some "sC") (some []) true

/-- A rate-limited response. -/
def resp429 : HttpResp := HttpResp.mk 429 0 none none true

/-- A successful response delivering one record. -/
def resp200w : HttpResp := HttpResp.mk 200 7 (some "sid") (some ["a"]) true

/-- An environment that is rate-limited forever. -/
def getAlways429 : Nat → HttpResp := fun _ => resp429

/-- An environment that is rate-limited once, then succeeds. -/
def get429Then200 : Nat → HttpResp :=
  fun i => if i == 0 then resp429 else resp200w

/-- A non-200/429 response whose body parses as JSON. -/
def resp500parseable : HttpResp := HttpResp.mk 500 0 none none true

/-- A non-200/429 response whose body does not parse as JSON. -/
def resp500garbled : HttpResp := HttpResp.mk 500 0 none none false

/-- A 200 XML body with records and a total but no `search_id` element. -/
def respNoSidXml : XResp :=
  XResp.mk 200 true (XmlBody.mk none (some "5") (some ["r1"]))

/-- A 200 JSON-driver body with records but no `search_id` member. -/
def respNoSidJson : HttpResp := HttpResp.mk 200 2 none (some ["a", "b"]) true

/-- A record whose control field 001 reads "X" and with one 245 $a subfield. -/
def recC3 : RawRecord :=
  RawRecord.mk [("001", some "X")]
    [Datafield.mk "245" none none [Subfield.mk "a" (some "T")]]

/-- An extraction rule whose output key collides with `undl_id`. -/
def elsC3 : List FieldSpec :=
  [FieldSpec.mk "245" "subfield" (some "a") none "undl_id"]

/-- A record with control field 001 and one datafield without subfields. -/
def recC10 : RawRecord :=
  RawRecord.mk [("001", some "1")] [Datafield.mk "300" none none []]

/-- A field-kind rule matching the subfield-less 300 datafield. -/
def specC10 : FieldSpec := FieldSpec.mk "300" "field" none none "pages"

/- ----------------------------------------------------------------
   Claims.
   ---------------------------------------------------------------- -/

/-- Claim C1, counterexample.  In a `get_records_json` session over three
    pages returning cursors s1, s2, s3, the three requests carry the cursors
    [absent, s1, s1]: the third request still carries the FIRST page's cursor
    s1 although the immediately preceding (second) page returned s2, so the
    cursor is not re-inserted after every page. -/
theorem json_driver_reuses_first_cursor :
    ((get_records_json pagesC1 pQ 5).logs.map URes.search_id)
      = [some "s1", some "s2", some "s3"] ∧
    ((get_records_json pagesC1 pQ 5).reqParams.map (fun p => pyGet p "search_id"))
      = [none, some (some "s1"), some (some "s1")] :=
  ⟨by decide, by decide⟩

/-- Claim C1, amended.  The XML fetcher `get_records_xml` issues the first
    request with the full caller map and re-inserts the immediately preceding
    page's cursor before every subsequent request; the JSON driver
    `get_records_json` inserts the cursor returned by the FIRST page once,
    after the first request, and every subsequent request reuses that same
    first-page cursor unchanged.  The first conjunct states the JSON half in
    general: from any driver state whose total is already captured (which
    holds from the end of the first iteration on), every further request of
    the session uses the one frozen parameter map, so no later page's cursor
    is ever inserted; the remaining conjuncts exhibit both cursor evolutions
    on a three-page session. -/
theorem cursor_evolution_by_fetcher :
    (∀ (pages : Nat → HttpResp) (fuel : Nat) (s : DState) (t : Int),
        s.total = some t →
        ∀ q ∈ (grj_loop pages fuel s).reqParams,
          q ∈ s.reqParams ∨ q = pyInsert s.sp "format" (some "xml")) ∧
    ((get_records_xml pagesX pQ 10).map
        (fun xr => xr.attempts.map (fun p => pyGet p "search_id")))
      = Except.ok [none, some (some "s1"), some (some "s2"), some (some "s3")] ∧
    ((get_records_xml pagesX pQ 10).map (fun xr => xr.attempts.head?))
      = Except.ok (some pQ) ∧
    ((get_records_json pagesC1 pQ 5).reqParams.head?)
      = some (pyInsert pQ "format" (some "xml")) ∧
    ((get_records_json pagesC1 pQ 5).reqParams.map (fun p => pyGet p "search_id"))
      = [none, some (some "s1"), some (some "s1")] :=
  ⟨fun pages fuel s t ht => (grj_frozen pages fuel s t ht).2,
   rfl, rfl, by decide, by decide⟩

/-- The driver parameter map after the first page of the s1/s2/s3 session:
    caller parameters, the format key, and the first page's cursor. -/
def spW : Params :=
  [("q", some "x"), ("format", some "xml"), ("search_id", some "s1")]

/-- A driver state as it stands after the first page of that session. -/
def s0W : DState :=
  DState.mk ["r1"] (some 3) [] spW [[("caller", some "map")]] 1

/-- Claim C1, witness for the amended theorem: in the concrete post-first-page
    state, a parameter map of a later request is the frozen map. -/
theorem cursor_evolution_by_fetcher_witness :
    spW ∈ s0W.reqParams ∨ spW = pyInsert s0W.sp "format" (some "xml") :=
  cursor_evolution_by_fetcher.1 pagesC1 2 s0W 3 rfl spW (by decide)

/-- Claim C2.  The value stored by the extractor for one compiled query
    equals the uniform shape-by-cardinality rule of the spec applied to the
    match list: zero matches give None, field-kind matches give one
    code-to-text dictionary per matched occurrence, subfield-kind matches
    give the matched texts, in document order, with the single-match case the
    one-element instance of the same rule. -/
theorem extract_shape_follows_cardinality (r : RawRecord) (e : FieldSpec) :
    extractValue r e = shape_by_cardinality e.element (findall r e) :=
  shapeValue_eq_rule e.element (findall r e)

/-- Claim C3, counterexample.  With a single query whose output key is
    `undl_id`, the extracted dictionary maps `undl_id` to that query's value
    (the matched subfield text list), not to the control-field text "X" of
    the record, refuting the claim for every list of compiled queries. -/
theorem undl_id_overwritten_by_colliding_query :
    pyGet (extract_xml recC3 elsC3) "undl_id" = some (Value.texts [some "T"]) ∧
    undlId recC3 = Value.strV "X" ∧
    Value.texts [some "T"] ≠ Value.strV "X" :=
  ⟨by decide, by decide, by decide⟩

/-- Claim C3, amended.  For every RawRecord and every list of queries none
    of which uses the output key `undl_id`, the extracted dictionary maps
    `undl_id` to the text of the control field tagged 001 (Python None when
    it is absent), independently of whether any query matched; a query named
    `undl_id` instead overwrites the entry. -/
theorem extract_preserves_undl_id (r : RawRecord) (els : List FieldSpec)
    (h : ∀ e ∈ els, e.name ≠ "undl_id") :
    pyGet (extract_xml r els) "undl_id" = some (undlId r) := by
  have hnames : ∀ q ∈ els.map get_query, q.spec.name ≠ "undl_id" := by
    intro q hq
    obtain ⟨e, he, hqe⟩ := List.mem_map.mp hq
    rw [← hqe]
    exact h e he
  unfold extract_xml
  rw [pyGet_extract_foldl r "undl_id" (els.map get_query) _ hnames]
  simp [pyGet, List.find?_cons]

/-- Claim C3, witness for the amended theorem at a concrete record and a
    non-colliding query list. -/
theorem extract_preserves_undl_id_witness :
    pyGet
      (extract_xml (RawRecord.mk [("001", some "X")] [])
        [FieldSpec.mk "245" "subfield" (some "a") none "title"])
      "undl_id" = some (Value.strV "X") :=
  (extract_preserves_undl_id (RawRecord.mk [("001", some "X")] [])
    [FieldSpec.mk "245" "subfield" (some "a") none "title"]
    (by decide)).trans (by decide)

/-- Claim C4.  The compiled selector is a pure function of the FieldSpec
    (it is a Lean function), and an empty-string subfield code extends the
    code-absent selector with a subfield step, so the two inputs always
    produce different selectors. -/
theorem get_query_distinguishes_empty_code (f el nm : String)
    (oi : Option String) :
    ((get_query (FieldSpec.mk f el (some "") oi nm)).query
        = (get_query (FieldSpec.mk f el none oi nm)).query
            ++ "/subfield" ++ attrTest "code" "") ∧
    (get_query (FieldSpec.mk f el (some "") oi nm)).query
      ≠ (get_query (FieldSpec.mk f el none oi nm)).query := by
  constructor
  · rfl
  · show (get_query (FieldSpec.mk f el none oi nm)).query
        ++ "/subfield" ++ attrTest "code" ""
      ≠ (get_query (FieldSpec.mk f el none oi nm)).query
    exact append2_ne _ _ _ (by decide)

/-- Claim C4, witness at a concrete FieldSpec. -/
theorem get_query_distinguishes_empty_code_witness :
    (get_query (FieldSpec.mk "035" "subfield" (some "") none "me_id")).query
      ≠ (get_query (FieldSpec.mk "035" "subfield" none none "me_id")).query :=
  (get_query_distinguishes_empty_code "035" "subfield" "me_id" none).2

/-- A rate-limited XML response whose body does not parse as XML. -/
def resp429xml : XResp := XResp.mk 429 false (XmlBody.mk none none none)

/-- A rate-limited XML response whose body happens to parse as XML but
    carries no `search_id` element. -/
def resp429xmlParsed : XResp :=
  XResp.mk 429 true (XmlBody.mk none (some "5") (some ["r"]))

/-- Claim C5, counterexample.  In `get_records_xml`, exceeding the 429 retry
    bound never surfaces an error in the result: after two consecutive 429s
    the fetcher parses the second 429 body and either breaks on the parse
    failure, returning the ordinary success-shaped, record-less result (the
    returned tree has no error channel at all), or — when that body happens
    to parse but lacks the cursor element — raises an AttributeError instead
    of returning a result. -/
theorem xml_fetcher_exhausted_retry_surfaces_no_error :
    get_records_xml (fun _ => resp429xml) pQ 3
      = Except.ok (XRes.mk [] [pQ, pQ] 300 none) ∧
    get_records_xml (fun _ => resp429xmlParsed) pQ 3
      = Except.error "AttributeError" :=
  ⟨rfl, rfl⟩

/-- Claim C5, amended.  In `undl_request`, a 429 pauses 300 seconds and the
    identical request is retried, the number of retries is bounded at one,
    and exhausting the bound returns status 429 with the rate-limit message
    in the error slot and no records instead of looping or succeeding (first
    conjunct); a 429 answered by a 200 recovers after one pause and the same
    repeated request (second conjunct).  In `get_records_xml`, a 429
    likewise pauses 300 seconds and repeats the identical request once, but
    when the bound is exceeded no error is surfaced in the result: the
    fetcher parses the second 429 response without rechecking its status
    and, when that body does not parse, returns the bare record-less result
    (third conjunct). -/
theorem rate_limited_bounded_retry (get : Nat → HttpResp) (params : Params) :
    ((get 0).status = 429 → (get 1).status = 429 →
      undl_request get params =
        URes.mk (some 429) none 0 (some rateLimitMsg) none []
          [pyInsert params "format" (some "xml"),
           pyInsert params "format" (some "xml")] 600) ∧
    ((get 0).status = 429 → (get 1).status = 200 →
      (undl_request get params).status = some 200 ∧
      (undl_request get params).slept = 300 ∧
      (undl_request get params).attempts =
        [pyInsert params "format" (some "xml"),
         pyInsert params "format" (some "xml")]) ∧
    (∀ xget : Nat → XResp, (xget 0).status = 429 → (xget 1).status = 429 →
      (xget 1).parseOk = false →
      get_records_xml xget params 3
        = Except.ok (XRes.mk [] [params, params] 300 none)) := by
  refine ⟨?_, ?_, ?_⟩
  · intro h0 h1
    simp [undl_request, undl_loop, h0, h1]
  · intro h0 h1
    cases hrec : (get 1).records with
    | none => simp [undl_request, undl_loop, h0, h1, hrec]
    | some rs => simp [undl_request, undl_loop, h0, h1, hrec]
  · intro xget h0 h1 hp
    simp [get_records_xml, grx_loop, h0, h1, hp, pyTruthy]

/-- Claim C5, witness: a permanently rate-limited environment exhausts the
    bound of `undl_request` and surfaces the error; a single 429 followed by
    a 200 recovers; a permanently rate-limited XML environment with an
    unparseable body makes `get_records_xml` return the bare record-less
    result after the one retry. -/
theorem rate_limited_bounded_retry_witness :
    undl_request getAlways429 pQ =
      URes.mk (some 429) none 0 (some rateLimitMsg) none []
        [pyInsert pQ "format" (some "xml"),
         pyInsert pQ "format" (some "xml")] 600 ∧
    (undl_request get429Then200 pQ).status = some 200 ∧
    get_records_xml (fun _ => resp429xml) pQ 3
      = Except.ok (XRes.mk [] [pQ, pQ] 300 none) :=
  ⟨(rate_limited_bounded_retry getAlways429 pQ).1 rfl rfl,
   ((rate_limited_bounded_retry get429Then200 pQ).2.1 rfl rfl).1,
   (rate_limited_bounded_retry getAlways429 pQ).2.2
     (fun _ => resp429xml) rfl rfl rfl⟩

/-- Claim C6, code bug.  On a 500 response whose body parses as JSON the
    fetcher stops after one request and returns with `error` still None —
    the parsed message is assigned to an unused variable and never stored —
    while the claim requires a populated, non-empty error field; only the
    unparseable-body branch stores the generic note. -/
theorem non200_with_parseable_body_leaves_error_unset :
    (undl_request (fun _ => resp500parseable) pQ).error = none ∧
    (undl_request (fun _ => resp500parseable) pQ).status = some 500 ∧
    (undl_request (fun _ => resp500parseable) pQ).attempts.length = 1 ∧
    (undl_request (fun _ => resp500garbled) pQ).error
      = some "500: Unable to parse error message" :=
  ⟨by decide, by decide, by decide, by decide⟩

/-- Claim C7, counterexample.  On a 200 response whose body has records and
    a total but no `search_id` element, `get_records_xml` raises
    (`response.find(..).text` on a missing element) instead of returning
    normally. -/
theorem missing_cursor_raises_in_xml_fetcher :
    get_records_xml (fun _ => respNoSidXml) pQ 3
      = Except.error "AttributeError" := rfl

/-- Claim C7, amended.  Only the JSON-driver transport `undl_request` treats
    a missing cursor as exhausted/invalid-search: on a 200 body with records
    but no `search_id` it returns normally after one request, with no error
    recorded and cursor None; `get_records_xml` instead raises an
    AttributeError when the cursor element is absent. -/
theorem missing_cursor_tolerated_by_undl_request (get : Nat → HttpResp)
    (params : Params) (rs : List String) (h0 : (get 0).status = 200)
    (h1 : (get 0).search_id = none) (h2 : (get 0).records = some rs) :
    (undl_request get params).error = none ∧
    (undl_request get params).search_id = none ∧
    (undl_request get params).records = rs ∧
    (undl_request get params).attempts.length = 1 := by
  simp [undl_request, undl_loop, h0, h1, h2]

/-- Claim C7, witness for the amended theorem. -/
theorem missing_cursor_tolerated_by_undl_request_witness :
    (undl_request (fun _ => respNoSidJson) pQ).error = none ∧
    (undl_request (fun _ => respNoSidJson) pQ).search_id = none ∧
    (undl_request (fun _ => respNoSidJson) pQ).records = ["a", "b"] ∧
    (undl_request (fun _ => respNoSidJson) pQ).attempts.length = 1 :=
  missing_cursor_tolerated_by_undl_request (fun _ => respNoSidJson) pQ
    ["a", "b"] rfl rfl rfl

/-- Claim C8.  Against pages of 2, then 1, then 0 records with reported
    total 3, the batch driver accumulates exactly the 3 records, captures
    the total, and issues exactly 2 requests: no request is made beyond the
    one that brought the accumulated count up to the total. -/
theorem batch_driver_stops_at_reported_total :
    (get_records_json pagesC8 pQ 5).all = ["r1", "r2", "r3"] ∧
    (get_records_json pagesC8 pQ 5).total = some 3 ∧
    (get_records_json pagesC8 pQ 5).reqParams.length = 2 :=
  ⟨by decide, by decide, by decide⟩

/-- Claim C9, counterexample.  On the list input containing
    "(DHL)12(DHL)34" the normalizer returns "1234": `str.replace` removes
    every occurrence of "(DHL)", while the claimed prefix-removal-and-trim
    would return "12(DHL)34". -/
theorem convert_me_id_not_prefix_removal :
    convert_me_id (CVal.listV [CVal.strV "(DHL)12(DHL)34"])
      = CVal.strV "1234" ∧
    leadingPrefixDropTrim "(DHL)12(DHL)34" = "12(DHL)34" ∧
    ("1234" : String) ≠ "12(DHL)34" :=
  ⟨rfl, by decide, by decide⟩

/-- Claim C9, amended.  For a non-list input the normalizer returns the
    input unchanged; for a list with no string element starting with
    "(DHL)" it returns None; for a list it returns the first qualifying
    string with EVERY occurrence of "(DHL)" removed (not only the leading
    prefix) and surrounding whitespace trimmed; the claimed concrete
    examples hold. -/
theorem convert_me_id_amended :
    (∀ v : CVal, (∀ xs : List CVal, v ≠ CVal.listV xs) →
        convert_me_id v = v) ∧
    (∀ xs : List CVal, (∀ x ∈ xs, isDHL x = false) →
        convert_me_id (CVal.listV xs) = CVal.noneV) ∧
    (∀ (pre post : List CVal) (s : String), (∀ x ∈ pre, isDHL x = false) →
        pyStartsWith s "(DHL)" = true →
        convert_me_id (CVal.listV (pre ++ CVal.strV s :: post))
          = CVal.strV (pyStrip (pyRemoveAll "(DHL)" s))) ∧
    convert_me_id (CVal.listV [CVal.strV "(DHL)12345 ", CVal.strV "other"])
      = CVal.strV "12345" ∧
    convert_me_id (CVal.listV [CVal.strV "other"]) = CVal.noneV ∧
    convert_me_id (CVal.strV "scalar") = CVal.strV "scalar" := by
  refine ⟨?_, ?_, ?_, rfl, rfl, rfl⟩
  · intro v h
    cases v with
    | strV s => rfl
    | intV n => rfl
    | listV xs => exact absurd rfl (h xs)
    | noneV => rfl
  · exact cmidLoop_no_match
  · exact cmidLoop_first_match

/-- Claim C9, witness for the amended theorem: a non-list passthrough, a
    list without qualifying element, and a first qualifying element. -/
theorem convert_me_id_amended_witness :
    convert_me_id (CVal.intV 7) = CVal.intV 7 ∧
    convert_me_id (CVal.listV [CVal.intV 5]) = CVal.noneV ∧
    convert_me_id (CVal.listV [CVal.strV "(DHL) a "]) = CVal.strV "a" :=
  ⟨convert_me_id_amended.1 (CVal.intV 7) (fun _ h => CVal.noConfusion h),
   convert_me_id_amended.2.1 [CVal.intV 5] (by decide),
   (convert_me_id_amended.2.2.1 [] [] "(DHL) a "
      (fun x hx => absurd hx (List.not_mem_nil x)) (by decide)).trans
     (congrArg CVal.strV (by decide))⟩

/-- Claim C10.  When a query of kind field matches exactly one datafield
    and that datafield has no subfields, extraction yields the one-element
    list containing the empty dictionary, not None. -/
theorem single_field_match_without_subfields_gives_empty_dict
    (r : RawRecord) (e : FieldSpec) (f : Datafield)
    (h1 : findall r e = [Node.fieldN f]) (h2 : f.subfields = [])
    (hk : e.element = "field") :
    extractValue r e = Value.dicts [[]] := by
  unfold extractValue
  rw [h1, hk]
  simp [shapeValue, nodeDict, nodeSubs, h2, pyDict]

/-- Claim C10, witness at a concrete record and field-kind query. -/
theorem single_field_match_without_subfields_gives_empty_dict_witness :
    extractValue recC10 specC10 = Value.dicts [[]] :=
  single_field_match_without_subfields_gives_empty_dict recC10 specC10
    (Datafield.mk "300" none none []) (by decide) rfl rfl

end Unlibmd
